import Mathlib

/-!
Shallow embedding of the `gilzoide/c-allocators` library: the modern
`size_t`-based double stack allocator (`src/double_stack_allocator.h`),
the modern single-ended stack allocator (`src/stack_allocator.h`), and
the legacy `int`-based double stack allocator (`src/double_stack_allocator.c`
with `src/src/double_stack_allocator.h`).

Modelling conventions:
* `size_t` values are natural numbers below `2 ^ 64`; the C arithmetic on them
  is modelled by `addW` / `subW`, which wrap modulo `2 ^ 64` exactly as
  unsigned C arithmetic does.
* Pointers are natural numbers, `0` playing the role of `NULL`.  A returned
  `Option Nat` is `none` for a `NULL` result and `some a` for the address `a`.
  Functions returning a fresh pointer compute it as `buffer + offset`, the
  C pointer arithmetic on the backing buffer.
* A C function that mutates the allocator is a Lean function returning the new
  allocator value (paired with the returned pointer when the C function
  returns one).  A C function that performs no assignment to the allocator is
  a Lean function that does not return an allocator at all.
* `DSA_FREE` / `free` effects are made observable: `dsa_release` additionally
  returns the non-`NULL` pointer handed to `DSA_FREE`, if any (`free(NULL)`
  deallocates nothing).
-/

/-- Number of values of the 64-bit C `size_t` type. -/
def usizeMod : Nat := 2 ^ 64

/-- C unsigned addition of two `size_t` values: wraps modulo `2 ^ 64`. -/
def addW (a b : Nat) : Nat := (a + b) % usizeMod

/-- C unsigned subtraction `a - b` of two `size_t` values (both below
`2 ^ 64`): wraps modulo `2 ^ 64`. -/
def subW (a b : Nat) : Nat := (usizeMod + a - b) % usizeMod

/-- The state of `dsa_double_stack_allocator` from `src/double_stack_allocator.h`:
`void *buffer; size_t capacity; size_t bottom; size_t top;`. -/
structure dsa_double_stack_allocator where
  buffer : Nat
  capacity : Nat
  bottom : Nat
  top : Nat
  deriving DecidableEq

/-- `dsa_new` / the `DSA_NEW` macro: wrap an already-allocated, caller-supplied
buffer, with `bottom = 0` and `top = capacity`. -/
def dsa_new (buffer capacity : Nat) : dsa_double_stack_allocator :=
  ⟨buffer, capacity, 0, capacity⟩

/-- `dsa_release`: `DSA_FREE(memory->buffer); *memory = (dsa_double_stack_allocator){};`.
The first component is the non-`NULL` pointer handed to `DSA_FREE`, if any. -/
def dsa_release (m : dsa_double_stack_allocator) :
    Option Nat × dsa_double_stack_allocator :=
  (if m.buffer = 0 then none else some m.buffer, ⟨0, 0, 0, 0⟩)

/-- `dsa_alloc_top`: `if(memory->top < memory->bottom + size) return NULL;
memory->top -= size; return ((uint8_t *) memory->buffer) + memory->top;`. -/
def dsa_alloc_top (m : dsa_double_stack_allocator) (size : Nat) :
    Option Nat × dsa_double_stack_allocator :=
  if m.top < addW m.bottom size then (none, m)
  else
    let top := subW m.top size
    (some (m.buffer + top), { m with top := top })

/-- `dsa_alloc_bottom`: `if(memory->bottom + size > memory->top) return NULL;
void *ptr = ((uint8_t *) memory->buffer) + memory->bottom;
memory->bottom += size; return ptr;`. -/
def dsa_alloc_bottom (m : dsa_double_stack_allocator) (size : Nat) :
    Option Nat × dsa_double_stack_allocator :=
  if addW m.bottom size > m.top then (none, m)
  else (some (m.buffer + m.bottom), { m with bottom := addW m.bottom size })

/-- `dsa_clear_top`: `memory->top = memory->capacity;`. -/
def dsa_clear_top (m : dsa_double_stack_allocator) : dsa_double_stack_allocator :=
  { m with top := m.capacity }

/-- `dsa_clear_bottom`: `memory->bottom = 0;`. -/
def dsa_clear_bottom (m : dsa_double_stack_allocator) : dsa_double_stack_allocator :=
  { m with bottom := 0 }

/-- `dsa_get_top_marker`: `return memory->top;`. -/
def dsa_get_top_marker (m : dsa_double_stack_allocator) : Nat := m.top

/-- `dsa_get_bottom_marker`: `return memory->bottom;`. -/
def dsa_get_bottom_marker (m : dsa_double_stack_allocator) : Nat := m.bottom

/-- `dsa_clear_top_marker`: `if(marker > memory->top && marker <= memory->capacity)
memory->top = marker;`. -/
def dsa_clear_top_marker (m : dsa_double_stack_allocator) (marker : Nat) :
    dsa_double_stack_allocator :=
  if marker > m.top ∧ marker ≤ m.capacity then { m with top := marker } else m

/-- `dsa_clear_bottom_marker`: `if(marker < memory->bottom) memory->bottom = marker;`. -/
def dsa_clear_bottom_marker (m : dsa_double_stack_allocator) (marker : Nat) :
    dsa_double_stack_allocator :=
  if marker < m.bottom then { m with bottom := marker } else m

/-- `dsa_peek_top`: `if(memory->capacity - memory->top < size) return NULL;
return ((uint8_t *) memory->buffer) + memory->top;`. -/
def dsa_peek_top (m : dsa_double_stack_allocator) (size : Nat) : Option Nat :=
  if subW m.capacity m.top < size then none else some (m.buffer + m.top)

/-- `dsa_peek_bottom`: `if(memory->bottom < size) return NULL;
return ((uint8_t *) memory->buffer) + memory->bottom - size;`. -/
def dsa_peek_bottom (m : dsa_double_stack_allocator) (size : Nat) : Option Nat :=
  if m.bottom < size then none else some (m.buffer + m.bottom - size)

/-- `dsa_available_memory`: `return memory->top - memory->bottom;`. -/
def dsa_available_memory (m : dsa_double_stack_allocator) : Nat :=
  subW m.top m.bottom

/-- `dsa_used_memory`: `return memory->bottom + (memory->capacity - memory->top);`. -/
def dsa_used_memory (m : dsa_double_stack_allocator) : Nat :=
  addW m.bottom (subW m.capacity m.top)

/-- Modelled from the spec: `popBottom(size)`.  The repository's test suite
(`test/test_double_stack_allocator.c`) calls `dsa_pop_bottom`, but no
definition of it exists under `src/`.  Per the spec, pops are a relative
rollback by `size` bytes from the current boundary that clamps to the empty
state (`bottom = 0`) when `size` exceeds the bytes currently used on that
side, mirroring `sa_pop` of the single-ended allocator. -/
def dsa_pop_bottom (m : dsa_double_stack_allocator) (size : Nat) :
    dsa_double_stack_allocator :=
  if size > m.bottom then { m with bottom := 0 }
  else { m with bottom := m.bottom - size }

/-- Modelled from the spec: `popTop(size)`.  The repository's test suite calls
`dsa_pop_top`, but no definition of it exists under `src/`.  Per the spec, the
top-side pop rolls `top` back (upward) by `size` bytes and clamps to the empty
state (`top = capacity`) when `size` exceeds the bytes currently used on the
top side, mirroring `sa_pop` of the single-ended allocator. -/
def dsa_pop_top (m : dsa_double_stack_allocator) (size : Nat) :
    dsa_double_stack_allocator :=
  if size > m.capacity - m.top then { m with top := m.capacity }
  else { m with top := m.top + size }

/-- The operations of the double stack allocator that rewrite the boundary
state, used to describe the reachable states of an arena. -/
inductive DsaOp where
  | allocBottom (size : Nat)
  | allocTop (size : Nat)
  | clearBottom
  | clearTop
  | resetBottomMarker (marker : Nat)
  | resetTopMarker (marker : Nat)
  | popBottom (size : Nat)
  | popTop (size : Nat)
  deriving DecidableEq

/-- Apply one operation to a double stack allocator state. -/
def dsa_step (m : dsa_double_stack_allocator) : DsaOp → dsa_double_stack_allocator
  | .allocBottom size => (dsa_alloc_bottom m size).2
  | .allocTop size => (dsa_alloc_top m size).2
  | .clearBottom => dsa_clear_bottom m
  | .clearTop => dsa_clear_top m
  | .resetBottomMarker marker => dsa_clear_bottom_marker m marker
  | .resetTopMarker marker => dsa_clear_top_marker m marker
  | .popBottom size => dsa_pop_bottom m size
  | .popTop size => dsa_pop_top m size

/-- Run a sequence of operations on a double stack allocator state.  The states
reachable from a fresh arena are exactly the values `dsa_run (dsa_new b c) ops`. -/
def dsa_run (m : dsa_double_stack_allocator) (ops : List DsaOp) :
    dsa_double_stack_allocator :=
  ops.foldl dsa_step m

/-- The documented well-formedness of a double stack allocator state:
`0 <= bottom <= top <= capacity`, with `capacity` a `size_t` value. -/
def dsa_wf (m : dsa_double_stack_allocator) : Prop :=
  m.bottom ≤ m.top ∧ m.top ≤ m.capacity ∧ m.capacity < usizeMod

instance (m : dsa_double_stack_allocator) : Decidable (dsa_wf m) :=
  inferInstanceAs (Decidable (_ ∧ _ ∧ _))

/-- The state of `sa_stack_allocator` from `src/stack_allocator.h`:
`void *buffer; size_t capacity; size_t marker;`. -/
structure sa_stack_allocator where
  buffer : Nat
  capacity : Nat
  marker : Nat
  deriving DecidableEq

/-- `sa_new` / the `SA_NEW` macro: wrap an already-allocated, caller-supplied
buffer, with `marker = 0`. -/
def sa_new (buffer capacity : Nat) : sa_stack_allocator :=
  ⟨buffer, capacity, 0⟩

/-- `sa_release`: `SA_FREE(memory->buffer); *memory = (sa_stack_allocator){};`.
The first component is the non-`NULL` pointer handed to `SA_FREE`, if any. -/
def sa_release (m : sa_stack_allocator) : Option Nat × sa_stack_allocator :=
  (if m.buffer = 0 then none else some m.buffer, ⟨0, 0, 0⟩)

/-- `sa_alloc`: `if(memory->marker + size > memory->capacity) return NULL;
void *ptr = ((uint8_t *) memory->buffer) + memory->marker;
memory->marker += size; return ptr;`. -/
def sa_alloc (m : sa_stack_allocator) (size : Nat) :
    Option Nat × sa_stack_allocator :=
  if addW m.marker size > m.capacity then (none, m)
  else (some (m.buffer + m.marker), { m with marker := addW m.marker size })

/-- `sa_clear`: `memory->marker = 0;`. -/
def sa_clear (m : sa_stack_allocator) : sa_stack_allocator :=
  { m with marker := 0 }

/-- `sa_get_marker`: `return memory->marker;`. -/
def sa_get_marker (m : sa_stack_allocator) : Nat := m.marker

/-- `sa_clear_marker`: `if(marker < memory->marker) memory->marker = marker;`. -/
def sa_clear_marker (m : sa_stack_allocator) (marker : Nat) : sa_stack_allocator :=
  if marker < m.marker then { m with marker := marker } else m

/-- `sa_pop`: `if(size > memory->marker) memory->marker = 0;
else memory->marker -= size;`. -/
def sa_pop (m : sa_stack_allocator) (size : Nat) : sa_stack_allocator :=
  if size > m.marker then { m with marker := 0 }
  else { m with marker := m.marker - size }

/-- `sa_peek`: `if(memory->marker < size) return NULL;
return ((uint8_t *) memory->buffer) + memory->marker - size;`. -/
def sa_peek (m : sa_stack_allocator) (size : Nat) : Option Nat :=
  if m.marker < size then none else some (m.buffer + m.marker - size)

/-- `sa_available_memory`: `return memory->capacity - memory->marker;`. -/
def sa_available_memory (m : sa_stack_allocator) : Nat :=
  subW m.capacity m.marker

/-- `sa_used_memory`: `return memory->marker;`. -/
def sa_used_memory (m : sa_stack_allocator) : Nat := m.marker

/-- The bottom-side view of a single-ended allocator as a double-ended one:
same buffer and capacity, `marker` in the role of `bottom`, and `top` pinned
at `capacity`. -/
def sa_to_dsa (s : sa_stack_allocator) : dsa_double_stack_allocator :=
  ⟨s.buffer, s.capacity, s.marker, s.capacity⟩

namespace legacy

/-- The state of the legacy `double_stack_allocator` from
`src/src/double_stack_allocator.h`: `void *buffer; int capacity; int top;
int bottom;` (note `top` is declared before `bottom`). -/
structure double_stack_allocator where
  buffer : Int
  capacity : Int
  top : Int
  bottom : Int
  deriving DecidableEq

/-- The successful-`malloc` path of the legacy `dsa_init_with_size`
(`src/double_stack_allocator.c`): `capacity = size; top = size - 1;
bottom = 0;`, with `buffer` the freshly allocated pointer.  The empty top
boundary is `capacity - 1`, one less than in the modern variant. -/
def dsa_init_with_size (buffer size : Int) : double_stack_allocator :=
  ⟨buffer, size, size - 1, 0⟩

/-- The legacy `dsa_alloc_top` (`src/double_stack_allocator.c`):
`if(memory->top - size < memory->bottom) return NULL;
memory->top -= size; return memory->buffer + memory->top + 1;`. -/
def dsa_alloc_top (m : double_stack_allocator) (size : Int) :
    Option Int × double_stack_allocator :=
  if m.top - size < m.bottom then (none, m)
  else
    let top := m.top - size
    (some (m.buffer + top + 1), { m with top := top })

/-- The legacy `dsa_available_memory`: `return memory->top + 1 - memory->bottom;`. -/
def dsa_available_memory (m : double_stack_allocator) : Int :=
  m.top + 1 - m.bottom

end legacy

/-- Helper: the state component returned by `dsa_alloc_top`. -/
theorem dsa_alloc_top_snd (m : dsa_double_stack_allocator) (size : Nat) :
    (dsa_alloc_top m size).2 =
      if m.top < addW m.bottom size then m else { m with top := subW m.top size } := by
  simp only [dsa_alloc_top]
  split <;> rfl

/-- Helper: the state component returned by `dsa_alloc_bottom`. -/
theorem dsa_alloc_bottom_snd (m : dsa_double_stack_allocator) (size : Nat) :
    (dsa_alloc_bottom m size).2 =
      if addW m.bottom size > m.top then m else { m with bottom := addW m.bottom size } := by
  simp only [dsa_alloc_bottom]
  split <;> rfl

/-- Helper: subtracting a `size_t` value from itself yields `0`. -/
theorem subW_self (a : Nat) : subW a a = 0 := by
  simp [subW]

/-- Helper: `subW` agrees with truncated subtraction on in-range operands. -/
theorem subW_eq_sub (a b : Nat) (hb : b ≤ a) (ha : a < usizeMod) :
    subW a b = a - b := by
  have h1 : usizeMod + a - b = usizeMod + (a - b) := by omega
  simp only [subW, h1, Nat.add_mod_left]
  exact Nat.mod_eq_of_lt (by omega)

/-- Helper: `addW` agrees with addition when the sum does not wrap. -/
theorem addW_eq_add (a b : Nat) (h : a + b < usizeMod) : addW a b = a + b :=
  Nat.mod_eq_of_lt h

/-- Outside the wraparound corner, every boundary operation preserves the
documented invariant `bottom ≤ top ≤ capacity`: only an `allocTop` request
whose `size_t` guard addition `bottom + size` wraps past `2 ^ 64` can break
it (that corner is exhibited by the claim C1 theorem below). -/
theorem dsa_wf_preserved (m : dsa_double_stack_allocator) (op : DsaOp)
    (h : dsa_wf m)
    (hop : ∀ size, op = DsaOp.allocTop size → m.bottom + size < usizeMod) :
    dsa_wf (dsa_step m op) := by
  obtain ⟨hbt, htc, hcW⟩ := h
  cases op with
  | allocBottom size =>
      show dsa_wf (dsa_alloc_bottom m size).2
      rw [dsa_alloc_bottom_snd]
      split
      · exact ⟨hbt, htc, hcW⟩
      · next hg => exact ⟨Nat.le_of_not_lt hg, htc, hcW⟩
  | allocTop size =>
      have hno : m.bottom + size < usizeMod := hop size rfl
      have ha : addW m.bottom size = m.bottom + size := addW_eq_add _ _ hno
      show dsa_wf (dsa_alloc_top m size).2
      rw [dsa_alloc_top_snd]
      split
      · exact ⟨hbt, htc, hcW⟩
      · next hg =>
        rw [ha] at hg
        have hsub : subW m.top size = m.top - size :=
          subW_eq_sub _ _ (by omega) (by omega)
        refine ⟨?_, ?_, hcW⟩
        · show m.bottom ≤ subW m.top size
          rw [hsub]; omega
        · show subW m.top size ≤ m.capacity
          rw [hsub]; omega
  | clearBottom => exact ⟨Nat.zero_le _, htc, hcW⟩
  | clearTop => exact ⟨hbt.trans htc, Nat.le_refl _, hcW⟩
  | resetBottomMarker marker =>
      show dsa_wf (dsa_clear_bottom_marker m marker)
      unfold dsa_clear_bottom_marker
      split
      · next hg => exact ⟨show marker ≤ m.top by omega, htc, hcW⟩
      · exact ⟨hbt, htc, hcW⟩
  | resetTopMarker marker =>
      show dsa_wf (dsa_clear_top_marker m marker)
      unfold dsa_clear_top_marker
      split
      · next hg =>
        exact ⟨show m.bottom ≤ marker by omega, show marker ≤ m.capacity by omega, hcW⟩
      · exact ⟨hbt, htc, hcW⟩
  | popBottom size =>
      show dsa_wf (dsa_pop_bottom m size)
      unfold dsa_pop_bottom
      split
      · exact ⟨Nat.zero_le _, htc, hcW⟩
      · exact ⟨show m.bottom - size ≤ m.top by omega, htc, hcW⟩
  | popTop size =>
      show dsa_wf (dsa_pop_top m size)
      unfold dsa_pop_top
      split
      · next hg => exact ⟨show m.bottom ≤ m.capacity by omega, Nat.le_refl _, hcW⟩
      · next hg =>
        exact ⟨show m.bottom ≤ m.top + size by omega,
          show m.top + size ≤ m.capacity by omega, hcW⟩

/-- Claim C1 (code evaluated at the failing input): from a fresh capacity-16
arena, the operation sequence allocateBottom(8); allocateTop(2^64 - 8) is
accepted by the code -- the `size_t` guard `top < bottom + size` wraps to
`16 < 0` -- and drives the arena into the state
`{bottom = 8, top = 24, capacity = 16}`, a reachable state with
`top > capacity`, violating the claimed invariant
`0 <= bottom <= top <= capacity`. -/
theorem c1_reachable_state_violates_invariant :
    dsa_run (dsa_new 1000 16) [DsaOp.allocBottom 8, DsaOp.allocTop (2 ^ 64 - 8)] =
      ⟨1000, 16, 8, 24⟩ ∧
    (dsa_run (dsa_new 1000 16) [DsaOp.allocBottom 8, DsaOp.allocTop (2 ^ 64 - 8)]).capacity <
      (dsa_run (dsa_new 1000 16) [DsaOp.allocBottom 8, DsaOp.allocTop (2 ^ 64 - 8)]).top :=
  ⟨rfl, by decide⟩

/-- Claim C2 (code evaluated at the failing input): in the state
`{buffer = 1000, capacity = 16, bottom = 8, top = 16}` (reachable from a fresh
capacity-16 arena by allocateBottom(8)), the request size `2^64 - 8` satisfies
`bottom + size > top` as integers, so per the claim `dsa_alloc_bottom` must
return `NULL` and mutate nothing; instead the `size_t` guard wraps to
`0 > 16`, and the code returns the non-`NULL` pointer `buffer + 8` and moves
`bottom` backward from 8 to 0. -/
theorem c2_alloc_bottom_accepts_oversized_request :
    16 < 8 + (2 ^ 64 - 8) ∧
    dsa_alloc_bottom ⟨1000, 16, 8, 16⟩ (2 ^ 64 - 8) =
      (some 1008, ⟨1000, 16, 0, 16⟩) :=
  ⟨by decide, rfl⟩

/-- Claim C3 (code evaluated at the failing input): in the state
`{buffer = 1000, capacity = 16, bottom = 8, top = 16}` (reachable from a fresh
capacity-16 arena by allocateBottom(8)), the request size `2^64 - 8` satisfies
`top - size < bottom` as integers, so per the claim `dsa_alloc_top` must fail
with no boundary mutated; instead the `size_t` guard wraps, and the code
returns the non-`NULL` pointer `buffer + 24` and sets `top` to 24, which even
exceeds `capacity = 16`. -/
theorem c3_alloc_top_accepts_oversized_request :
    ((16 : Int) - ((2 : Int) ^ 64 - 8) < 8) ∧
    dsa_alloc_top ⟨1000, 16, 8, 16⟩ (2 ^ 64 - 8) =
      (some 1024, ⟨1000, 16, 8, 24⟩) :=
  ⟨by decide, rfl⟩

/-- Claim C4, counterexample: `dsa_new` wraps an already-allocated,
caller-supplied (borrowed) buffer, yet `dsa_release` passes that buffer to
`DSA_FREE` -- the struct has no ownership flag and the free is unconditional,
so a borrowed buffer IS freed, contradicting the claim. -/
theorem c4_counterexample_borrowed_buffer_freed :
    (dsa_release (dsa_new 1000 16)).1 = some 1000 := rfl

/-- Claim C4 as amended: `dsa_release` passes the buffer to `DSA_FREE`
unconditionally, owned or borrowed (`free(NULL)` on an empty arena frees
nothing), then zeroes every field; a second `dsa_release` is a safe no-op
that frees nothing (the buffer pointer is already `NULL`), and after any
release both `dsa_available_memory` and `dsa_used_memory` are 0. -/
theorem c4_release_zeroes_and_never_double_frees (m : dsa_double_stack_allocator) :
    (dsa_release m).1 = (if m.buffer = 0 then none else some m.buffer) ∧
    (dsa_release m).2 = ⟨0, 0, 0, 0⟩ ∧
    (dsa_release (dsa_release m).2).1 = none ∧
    (dsa_release (dsa_release m).2).2 = (dsa_release m).2 ∧
    dsa_available_memory (dsa_release m).2 = 0 ∧
    dsa_used_memory (dsa_release m).2 = 0 :=
  ⟨rfl, rfl, rfl, rfl, subW_self 0, by show addW 0 (subW 0 0) = 0; rw [subW_self]; decide⟩

/-- Claim C5: `dsa_clear_bottom_marker` assigns `bottom = marker` exactly when
`marker` is strictly below the current `bottom` (non-negativity is inherent to
`size_t`), and otherwise is a no-op; `dsa_clear_top_marker` assigns
`top = marker` exactly when `marker` is strictly above the current `top` and
at most `capacity`, and otherwise is a no-op.  An out-of-range marker changes
nothing, and neither operation can signal an error. -/
theorem c5_reset_marker_conditions (m : dsa_double_stack_allocator) (marker : Nat) :
    (marker < m.bottom → dsa_clear_bottom_marker m marker = { m with bottom := marker }) ∧
    (m.bottom ≤ marker → dsa_clear_bottom_marker m marker = m) ∧
    (m.top < marker → marker ≤ m.capacity →
      dsa_clear_top_marker m marker = { m with top := marker }) ∧
    (¬ (m.top < marker ∧ marker ≤ m.capacity) → dsa_clear_top_marker m marker = m) := by
  refine ⟨fun h => ?_, fun h => ?_, fun h1 h2 => ?_, fun h => ?_⟩
  · simp only [dsa_clear_bottom_marker]
    exact if_pos h
  · simp only [dsa_clear_bottom_marker]
    exact if_neg (by omega)
  · simp only [dsa_clear_top_marker]
    exact if_pos ⟨h1, h2⟩
  · simp only [dsa_clear_top_marker]
    exact if_neg h

/-- Witness for claim C5: concrete marker resets on the state
`{capacity = 16, bottom = 8, top = 12}`, one instance per case of the
theorem. -/
theorem c5_reset_marker_conditions_witness :
    dsa_clear_bottom_marker ⟨0, 16, 8, 12⟩ 4 = ⟨0, 16, 4, 12⟩ ∧
    dsa_clear_bottom_marker ⟨0, 16, 8, 12⟩ 9 = ⟨0, 16, 8, 12⟩ ∧
    dsa_clear_top_marker ⟨0, 16, 8, 12⟩ 14 = ⟨0, 16, 8, 14⟩ ∧
    dsa_clear_top_marker ⟨0, 16, 8, 12⟩ 10 = ⟨0, 16, 8, 12⟩ :=
  ⟨(c5_reset_marker_conditions ⟨0, 16, 8, 12⟩ 4).1 (by decide),
   (c5_reset_marker_conditions ⟨0, 16, 8, 12⟩ 9).2.1 (by decide),
   (c5_reset_marker_conditions ⟨0, 16, 8, 12⟩ 14).2.2.1 (by decide) (by decide),
   (c5_reset_marker_conditions ⟨0, 16, 8, 12⟩ 10).2.2.2 (by decide)⟩

/-- Claim C6: `sa_pop` (from the source) and the spec-modelled
`dsa_pop_bottom` / `dsa_pop_top` roll the respective boundary back by `size`
bytes, clamping to the empty state (`marker = 0` / `bottom = 0` /
`top = capacity`) whenever `size` exceeds the bytes currently used on that
side, and never move the boundary past 0 or `capacity`.  On naturals the
truncated difference `a - b` expresses exactly this saturating rollback, and
`min (top + size) capacity` the capacity clamp. -/
theorem c6_pop_saturates (s : sa_stack_allocator) (m : dsa_double_stack_allocator)
    (size : Nat) :
    (sa_pop s size).marker = s.marker - size ∧
    (s.marker < size → (sa_pop s size).marker = 0) ∧
    (dsa_pop_bottom m size).bottom = m.bottom - size ∧
    (m.bottom < size → (dsa_pop_bottom m size).bottom = 0) ∧
    (dsa_pop_bottom m size).top = m.top ∧
    (dsa_pop_top m size).bottom = m.bottom ∧
    (m.capacity - m.top < size → (dsa_pop_top m size).top = m.capacity) ∧
    (m.top ≤ m.capacity → (dsa_pop_top m size).top = min (m.top + size) m.capacity) := by
  refine ⟨?_, fun h => ?_, ?_, fun h => ?_, ?_, ?_, fun h => ?_, fun h => ?_⟩
  · unfold sa_pop
    split
    · next hg => show 0 = s.marker - size; omega
    · show s.marker - size = s.marker - size; rfl
  · unfold sa_pop
    rw [if_pos h]
  · unfold dsa_pop_bottom
    split
    · next hg => show 0 = m.bottom - size; omega
    · show m.bottom - size = m.bottom - size; rfl
  · unfold dsa_pop_bottom
    rw [if_pos h]
  · unfold dsa_pop_bottom
    split <;> rfl
  · unfold dsa_pop_top
    split <;> rfl
  · unfold dsa_pop_top
    rw [if_pos h]
  · unfold dsa_pop_top
    split
    · next hg => show m.capacity = min (m.top + size) m.capacity; omega
    · next hg => show m.top + size = min (m.top + size) m.capacity; omega

/-- Witness for claim C6: popping 100 bytes when only 4 are used on the bottom
(marker 4) and 4 on the top (top 12 of capacity 16) clamps each boundary to
its empty state. -/
theorem c6_pop_saturates_witness :
    (sa_pop ⟨0, 16, 4⟩ 100).marker = 0 ∧
    (dsa_pop_bottom ⟨0, 16, 4, 12⟩ 100).bottom = 0 ∧
    (dsa_pop_top ⟨0, 16, 4, 12⟩ 100).top = 16 :=
  ⟨(c6_pop_saturates ⟨0, 16, 4⟩ ⟨0, 16, 4, 12⟩ 100).2.1 (by decide),
   (c6_pop_saturates ⟨0, 16, 4⟩ ⟨0, 16, 4, 12⟩ 100).2.2.2.1 (by decide),
   (c6_pop_saturates ⟨0, 16, 4⟩ ⟨0, 16, 4, 12⟩ 100).2.2.2.2.2.2.1 (by decide)⟩

/-- Claim C7: on any well-formed arena state, zero-size allocations from both
ends succeed, return the non-`NULL` address at the respective boundary, leave
the state (hence every boundary) unchanged, and change neither
`dsa_used_memory` nor `dsa_available_memory`. -/
theorem c7_zero_size_alloc (m : dsa_double_stack_allocator) (h : dsa_wf m) :
    dsa_alloc_bottom m 0 = (some (m.buffer + m.bottom), m) ∧
    dsa_alloc_top m 0 = (some (m.buffer + m.top), m) ∧
    dsa_used_memory (dsa_alloc_bottom m 0).2 = dsa_used_memory m ∧
    dsa_available_memory (dsa_alloc_top m 0).2 = dsa_available_memory m := by
  obtain ⟨hbt, htc, hcW⟩ := h
  have hbW : m.bottom < usizeMod := lt_of_le_of_lt (hbt.trans htc) hcW
  have htW : m.top < usizeMod := lt_of_le_of_lt htc hcW
  have hb : addW m.bottom 0 = m.bottom := by
    simp only [addW, Nat.add_zero]
    exact Nat.mod_eq_of_lt hbW
  have ht : subW m.top 0 = m.top := by
    simp only [subW, Nat.sub_zero, Nat.add_mod_left]
    exact Nat.mod_eq_of_lt htW
  have hab : dsa_alloc_bottom m 0 = (some (m.buffer + m.bottom), m) := by
    simp only [dsa_alloc_bottom, hb]
    rw [if_neg (by omega)]
  have hat : dsa_alloc_top m 0 = (some (m.buffer + m.top), m) := by
    simp only [dsa_alloc_top, hb, ht]
    rw [if_neg (by omega)]
  exact ⟨hab, hat, by rw [hab], by rw [hat]⟩

/-- Witness for claim C7: zero-size allocations on the well-formed state
`{buffer = 1000, capacity = 16, bottom = 4, top = 12}`. -/
theorem c7_zero_size_alloc_witness :
    dsa_alloc_bottom ⟨1000, 16, 4, 12⟩ 0 = (some 1004, ⟨1000, 16, 4, 12⟩) ∧
    dsa_alloc_top ⟨1000, 16, 4, 12⟩ 0 = (some 1012, ⟨1000, 16, 4, 12⟩) :=
  ⟨(c7_zero_size_alloc ⟨1000, 16, 4, 12⟩ (by decide)).1,
   (c7_zero_size_alloc ⟨1000, 16, 4, 12⟩ (by decide)).2.1⟩

/-- Claim C8: on a well-formed double-ended state, `dsa_peek_bottom size`
returns the address of the last `size` bytes allocated from the bottom
(`buffer + bottom - size`) exactly when at least `size` bytes are used there
(`size ≤ bottom`) and `NULL` otherwise; `dsa_peek_top size` returns
`buffer + top` exactly when `size ≤ capacity - top`, and `NULL` otherwise;
`sa_peek` behaves like the bottom peek with `marker` for `bottom`.  The peek
functions take only the state and return only the address, mirroring that the
C functions perform no assignment. -/
theorem c8_peek_returns_last_bytes_or_null (m : dsa_double_stack_allocator)
    (s : sa_stack_allocator) (size : Nat) (h : dsa_wf m) :
    (size ≤ m.bottom → dsa_peek_bottom m size = some (m.buffer + m.bottom - size)) ∧
    (m.bottom < size → dsa_peek_bottom m size = none) ∧
    (size ≤ m.capacity - m.top → dsa_peek_top m size = some (m.buffer + m.top)) ∧
    (m.capacity - m.top < size → dsa_peek_top m size = none) ∧
    (size ≤ s.marker → sa_peek s size = some (s.buffer + s.marker - size)) ∧
    (s.marker < size → sa_peek s size = none) := by
  obtain ⟨hbt, htc, hcW⟩ := h
  have hsub : subW m.capacity m.top = m.capacity - m.top := subW_eq_sub _ _ htc hcW
  refine ⟨fun hs => ?_, fun hs => ?_, fun hs => ?_, fun hs => ?_, fun hs => ?_, fun hs => ?_⟩
  · simp only [dsa_peek_bottom]
    rw [if_neg (by omega)]
  · simp only [dsa_peek_bottom]
    rw [if_pos hs]
  · simp only [dsa_peek_top, hsub]
    rw [if_neg (by omega)]
  · simp only [dsa_peek_top, hsub]
    rw [if_pos hs]
  · simp only [sa_peek]
    rw [if_neg (by omega)]
  · simp only [sa_peek]
    rw [if_pos hs]

/-- Witness for claim C8: peeks on the well-formed double-ended state
`{buffer = 1000, capacity = 16, bottom = 8, top = 12}` (8 bytes used at the
bottom, 4 at the top) and the single-ended state `{buffer = 1000,
capacity = 16, marker = 8}`. -/
theorem c8_peek_witness :
    dsa_peek_bottom ⟨1000, 16, 8, 12⟩ 4 = some 1004 ∧
    dsa_peek_bottom ⟨1000, 16, 8, 12⟩ 9 = none ∧
    dsa_peek_top ⟨1000, 16, 8, 12⟩ 4 = some 1012 ∧
    dsa_peek_top ⟨1000, 16, 8, 12⟩ 5 = none ∧
    sa_peek ⟨1000, 16, 8⟩ 4 = some 1004 ∧
    sa_peek ⟨1000, 16, 8⟩ 9 = none :=
  ⟨(c8_peek_returns_last_bytes_or_null ⟨1000, 16, 8, 12⟩ ⟨1000, 16, 8⟩ 4 (by decide)).1
     (by decide),
   (c8_peek_returns_last_bytes_or_null ⟨1000, 16, 8, 12⟩ ⟨1000, 16, 8⟩ 9 (by decide)).2.1
     (by decide),
   (c8_peek_returns_last_bytes_or_null ⟨1000, 16, 8, 12⟩ ⟨1000, 16, 8⟩ 4 (by decide)).2.2.1
     (by decide),
   (c8_peek_returns_last_bytes_or_null ⟨1000, 16, 8, 12⟩ ⟨1000, 16, 8⟩ 5 (by decide)).2.2.2.1
     (by decide),
   (c8_peek_returns_last_bytes_or_null ⟨1000, 16, 8, 12⟩ ⟨1000, 16, 8⟩ 4 (by decide)).2.2.2.2.1
     (by decide),
   (c8_peek_returns_last_bytes_or_null ⟨1000, 16, 8, 12⟩ ⟨1000, 16, 8⟩ 9 (by decide)).2.2.2.2.2
     (by decide)⟩

/-- Claim C9: every single-ended operation is observationally equal to the
corresponding bottom-side double-ended operation on the state `sa_to_dsa s`,
whose `top` is pinned at `capacity` and whose `bottom` is `s.marker`:
`sa_alloc` / `dsa_alloc_bottom` (same success and failure outcome, same
returned address, corresponding resulting state), `sa_clear` /
`dsa_clear_bottom`, `sa_clear_marker` / `dsa_clear_bottom_marker`,
`sa_get_marker` / `dsa_get_bottom_marker`, `sa_peek` / `dsa_peek_bottom`,
`sa_available_memory` / `dsa_available_memory`, and `sa_used_memory` /
`dsa_used_memory`. -/
theorem c9_sa_refines_dsa_bottom (s : sa_stack_allocator) (size marker : Nat)
    (hm : s.marker < usizeMod) :
    (sa_alloc s size).1 = (dsa_alloc_bottom (sa_to_dsa s) size).1 ∧
    sa_to_dsa (sa_alloc s size).2 = (dsa_alloc_bottom (sa_to_dsa s) size).2 ∧
    sa_to_dsa (sa_clear s) = dsa_clear_bottom (sa_to_dsa s) ∧
    sa_to_dsa (sa_clear_marker s marker) = dsa_clear_bottom_marker (sa_to_dsa s) marker ∧
    sa_get_marker s = dsa_get_bottom_marker (sa_to_dsa s) ∧
    sa_peek s size = dsa_peek_bottom (sa_to_dsa s) size ∧
    sa_available_memory s = dsa_available_memory (sa_to_dsa s) ∧
    sa_used_memory s = dsa_used_memory (sa_to_dsa s) := by
  refine ⟨?_, ?_, rfl, ?_, rfl, rfl, rfl, ?_⟩
  · show (sa_alloc s size).1 =
      (if addW s.marker size > s.capacity then (none, sa_to_dsa s)
        else (some (s.buffer + s.marker),
          { sa_to_dsa s with bottom := addW s.marker size })).1
    unfold sa_alloc
    split <;> rfl
  · show sa_to_dsa (sa_alloc s size).2 =
      (if addW s.marker size > s.capacity then (none, sa_to_dsa s)
        else (some (s.buffer + s.marker),
          { sa_to_dsa s with bottom := addW s.marker size })).2
    unfold sa_alloc
    split <;> rfl
  · show sa_to_dsa (sa_clear_marker s marker) =
      if marker < s.marker then { sa_to_dsa s with bottom := marker } else sa_to_dsa s
    unfold sa_clear_marker
    split <;> rfl
  · show s.marker = addW s.marker (subW s.capacity s.capacity)
    rw [subW_self]
    show s.marker = (s.marker + 0) % usizeMod
    rw [Nat.add_zero, Nat.mod_eq_of_lt hm]

/-- Witness for claim C9: the correspondence evaluated on the single-ended
state `{buffer = 1000, capacity = 16, marker = 4}` with request size 4 and
marker 2. -/
theorem c9_sa_refines_dsa_bottom_witness :
    (sa_alloc ⟨1000, 16, 4⟩ 4).1 = (dsa_alloc_bottom (sa_to_dsa ⟨1000, 16, 4⟩) 4).1 ∧
    sa_to_dsa (sa_clear_marker ⟨1000, 16, 4⟩ 2) =
      dsa_clear_bottom_marker (sa_to_dsa ⟨1000, 16, 4⟩) 2 ∧
    sa_used_memory ⟨1000, 16, 4⟩ = dsa_used_memory (sa_to_dsa ⟨1000, 16, 4⟩) :=
  ⟨(c9_sa_refines_dsa_bottom ⟨1000, 16, 4⟩ 4 2 (by decide)).1,
   (c9_sa_refines_dsa_bottom ⟨1000, 16, 4⟩ 4 2 (by decide)).2.2.2.1,
   (c9_sa_refines_dsa_bottom ⟨1000, 16, 4⟩ 4 2 (by decide)).2.2.2.2.2.2.2⟩

/-- Claim C10: under the correspondence `legacy.top = modern.top - 1`,
`legacy.bottom = modern.bottom`, an exact-fit top allocation (request equal to
the available memory, `size = top + 1 - bottom` in the legacy representation)
is rejected by the legacy `dsa_alloc_top` -- its guard `top - size < bottom`
reduces to `bottom - 1 < bottom`, always true -- while the modern `size_t`
`dsa_alloc_top` accepts the same request, returns `buffer + bottom`, moves
`top` down to `bottom` and leaves 0 bytes available.  The two duplicated
variants are therefore not observationally equivalent. -/
theorem c10_legacy_rejects_exact_fit_modern_accepts
    (lm : legacy.double_stack_allocator) (m : dsa_double_stack_allocator)
    (lsize : Int) (size : Nat)
    (hs : size = m.top - m.bottom) (hbt : m.bottom ≤ m.top) (htW : m.top < usizeMod)
    (hcorr : lm.top = (m.top : Int) - 1) (hbcorr : lm.bottom = (m.bottom : Int))
    (hsz : lsize = (size : Int)) :
    (legacy.dsa_alloc_top lm lsize).1 = none ∧
    (dsa_alloc_top m size).1 = some (m.buffer + m.bottom) ∧
    (dsa_alloc_top m size).2 = { m with top := m.bottom } ∧
    dsa_available_memory (dsa_alloc_top m size).2 = 0 := by
  have hsZ : (size : Int) = (m.top : Int) - (m.bottom : Int) := by
    rw [hs]
    exact Nat.cast_sub hbt
  have hguard : lm.top - lsize < lm.bottom := by
    rw [hcorr, hbcorr, hsz, hsZ]
    omega
  have haddW : addW m.bottom size = m.top := by
    rw [hs, addW]
    have he : m.bottom + (m.top - m.bottom) = m.top := by omega
    rw [he]
    exact Nat.mod_eq_of_lt htW
  have hsubW : subW m.top size = m.bottom := by
    rw [hs]
    have he : subW m.top (m.top - m.bottom) = m.top - (m.top - m.bottom) :=
      subW_eq_sub _ _ (by omega) htW
    rw [he]
    omega
  have hmodern : dsa_alloc_top m size =
      (some (m.buffer + m.bottom), { m with top := m.bottom }) := by
    simp only [dsa_alloc_top, haddW, hsubW]
    rw [if_neg (by omega)]
  refine ⟨?_, ?_, ?_, ?_⟩
  · unfold legacy.dsa_alloc_top
    rw [if_pos hguard]
  · rw [hmodern]
  · rw [hmodern]
  · rw [hmodern]
    show subW m.bottom m.bottom = 0
    exact subW_self _

/-- Witness for claim C10: with capacity 16 and both sides empty (legacy
`top = 15`, modern `top = 16`), the exact-fit top request of 16 bytes is
rejected by the legacy variant and accepted by the modern one. -/
theorem c10_legacy_rejects_exact_fit_witness :
    (legacy.dsa_alloc_top ⟨1000, 16, 15, 0⟩ 16).1 = none ∧
    (dsa_alloc_top ⟨1000, 16, 0, 16⟩ 16).1 = some 1000 ∧
    dsa_available_memory (dsa_alloc_top ⟨1000, 16, 0, 16⟩ 16).2 = 0 :=
  ⟨(c10_legacy_rejects_exact_fit_modern_accepts ⟨1000, 16, 15, 0⟩ ⟨1000, 16, 0, 16⟩
      16 16 (by decide) (by decide) (by decide) (by decide) (by decide) (by decide)).1,
   (c10_legacy_rejects_exact_fit_modern_accepts ⟨1000, 16, 15, 0⟩ ⟨1000, 16, 0, 16⟩
      16 16 (by decide) (by decide) (by decide) (by decide) (by decide) (by decide)).2.1,
   (c10_legacy_rejects_exact_fit_modern_accepts ⟨1000, 16, 15, 0⟩ ⟨1000, 16, 0, 16⟩
      16 16 (by decide) (by decide) (by decide) (by decide) (by decide) (by decide)).2.2.2⟩
